import Mathlib

/-!
Shallow embedding of `hordak/models.py` (django-hordak double-entry
bookkeeping core).  Django model instances become plain structures, the
database becomes an explicit `Db` value, queryset operations become list
functions, and every operation that can raise becomes an `Except`-valued
function.  Money amounts are modelled as `Int` (the decimal amounts of
`MoneyField`/`DecimalField`; currency tags are never inspected by the
code under verification).  Dates are modelled as `Nat` (only ordering is
used).  `@db_transaction.atomic()` is modelled by construction: a failing
operation returns `.error e` and no updated `Db`, so nothing persists.
-/

namespace Hordak

/-- `Account.TYPES` from the source: asset, liability, income, expense, equity. -/
inductive AccountType
  | asset
  | liability
  | income
  | expense
  | equity
deriving DecidableEq, Repr

/-- The `DEBIT`/`CREDIT` constants at the top of the file. -/
inductive LegKind
  | debit
  | credit
deriving DecidableEq, Repr

/-- The exceptions raised by `hordak/models.py` (module `hordak.exceptions`),
plus `doesNotExist` for a dangling foreign-key access. -/
inductive HordakError
  | zeroAmountError
  | accountTypeOnChildNode
  | accountingEquationViolationError (total : Int)
  | doesNotExist
deriving DecidableEq, Repr

/-- An `Account` row.  `typeStored` embeds the `_type` column (a CharField with
`blank=True`, hence `Option`); `parent` is the MPTT parent foreign key. -/
structure Account where
  id : Nat
  name : String
  parent : Option Nat
  code : String
  typeStored : Option AccountType
  has_statements : Bool
deriving DecidableEq, Repr

/-- A `Transaction` row (`uuid`/`timestamp` omitted: never read by the code
under verification). -/
structure Transaction where
  id : Nat
  date : Nat
  description : String
deriving DecidableEq, Repr

/-- A `Leg` row.  `transaction` and `account` are foreign keys by id. -/
structure Leg where
  id : Nat
  transaction : Nat
  account : Nat
  amount : Int
  description : String
deriving DecidableEq, Repr

/-- A `StatementImport` row: `bank_account` is a foreign key to an `Account`. -/
structure StatementImport where
  id : Nat
  bank_account : Nat
deriving DecidableEq, Repr

/-- A `StatementLine` row.  `transaction` is the nullable reconciliation
foreign key. -/
structure StatementLine where
  id : Nat
  date : Nat
  statement_import : Nat
  amount : Int
  description : String
  transaction : Option Nat
deriving DecidableEq, Repr

/-- The backing store: every table, plus primary-key counters used by
`objects.create(...)`. -/
structure Db where
  accounts : List Account
  transactions : List Transaction
  legs : List Leg
  statement_imports : List StatementImport
  statement_lines : List StatementLine
  nextTransactionId : Nat
  nextLegId : Nat
deriving DecidableEq, Repr

/-- Foreign-key lookup of an account by id. -/
def findAccount (db : Db) (i : Nat) : Option Account :=
  db.accounts.find? (fun a => a.id == i)

/-- Foreign-key lookup of a transaction by id. -/
def findTransaction (db : Db) (i : Nat) : Option Transaction :=
  db.transactions.find? (fun t => t.id == i)

/-- Foreign-key lookup of a statement import by id. -/
def findStatementImport (db : Db) (i : Nat) : Option StatementImport :=
  db.statement_imports.find? (fun s => s.id == i)

/-- MPTT `is_root_node()`: no parent. -/
def Account.is_root_node (a : Account) : Bool :=
  a.parent.isNone

/-- Fuel-bounded walk up the parent chain (MPTT `get_root()`); `none` when the
chain is broken or too long (cyclic). -/
def get_rootAux (db : Db) : Nat → Account → Option Account
  | 0, _ => none
  | Nat.succ fuel, a =>
    match a.parent with
    | none => some a
    | some p =>
      match findAccount db p with
      | none => none
      | some pa => get_rootAux db fuel pa

/-- MPTT `get_root()`. -/
def get_root (db : Db) (a : Account) : Option Account :=
  get_rootAux db (db.accounts.length + 1) a

/-- The `Account.type` property getter: a root account's own `_type`, a child
account's root ancestor's `_type`. -/
def Account.type (db : Db) (a : Account) : Option AccountType :=
  if a.is_root_node then a.typeStored
  else
    match get_root db a with
    | some root => root.typeStored
    | none => none

/-- The `Account.type` property setter: only root nodes may have an account
type; on a child node it raises `AccountTypeOnChildNode`. -/
def Account.setType (a : Account) (value : AccountType) : Except HordakError Account :=
  if a.is_root_node then .ok { a with typeStored := some value }
  else .error .accountTypeOnChildNode

/-- The `Account.sign` property: `-1` if the effective type is asset or
expense, else `1`. -/
def Account.sign (db : Db) (a : Account) : Int :=
  if Account.type db a = some .asset ∨ Account.type db a = some .expense then -1 else 1

/-- The ids on the path root → `a`, inclusive (fuel-bounded, following MPTT
`get_ancestors(include_self=True)`). -/
def ancestorIdsAux (db : Db) : Nat → Account → List Nat
  | 0, _ => []
  | Nat.succ fuel, a =>
    match a.parent with
    | none => [a.id]
    | some p =>
      match findAccount db p with
      | none => [a.id]
      | some pa => ancestorIdsAux db fuel pa ++ [a.id]

/-- Ids of the ancestors of `a`, self included. -/
def get_ancestor_ids (db : Db) (a : Account) : List Nat :=
  ancestorIdsAux db (db.accounts.length + 1) a

/-- MPTT `get_descendants(include_self=True)`: every stored account whose
ancestor chain passes through `a`. -/
def get_descendants (db : Db) (a : Account) : List Account :=
  db.accounts.filter (fun x => a.id ∈ get_ancestor_ids db x)

/-- `Account.objects.root_nodes()`: the accounts with no parent. -/
def root_nodes (db : Db) : List Account :=
  db.accounts.filter (fun a => a.is_root_node)

/-- `self.legs`: the legs posted directly to this account. -/
def accountLegs (db : Db) (a : Account) : List Leg :=
  db.legs.filter (fun l => l.account == a.id)

/-- `legs.filter(transaction__date__lte=as_of)` when `as_of` is given. -/
def dateFilter (db : Db) (as_of : Option Nat) (ls : List Leg) : List Leg :=
  match as_of with
  | none => ls
  | some d =>
    ls.filter (fun l =>
      match findTransaction db l.transaction with
      | some t => t.date ≤ d
      | none => false)

/-- `legs.filter(**kwargs)` for the extra keyword filters: `none` means no
keyword filters were passed. -/
def kwargsFilter (extra : Option (Leg → Bool)) (ls : List Leg) : List Leg :=
  match extra with
  | none => ls
  | some p => ls.filter p

/-- Django `aggregate(Sum(amount))` returns `None` on an empty queryset,
else the sum. -/
def aggregate_sum (ls : List Leg) : Option Int :=
  if ls.isEmpty then none else some ((ls.map Leg.amount).sum)

/-- `LegQuerySet.sum_amount`: the aggregate sum, with `or 0` mapping the
empty-queryset `None` to `0`. -/
def sum_amount (ls : List Leg) : Int :=
  (aggregate_sum ls).getD 0

/-- `Account.simple_balance(as_of, raw, **kwargs)`: the sum of the directly
posted legs, date-filtered and keyword-filtered, times `1` if `raw` else the
account's sign. -/
def simple_balance (db : Db) (a : Account) (as_of : Option Nat) (raw : Bool)
    (extra : Option (Leg → Bool)) : Int :=
  sum_amount (kwargsFilter extra (dateFilter db as_of (accountLegs db a))) *
    (if raw then 1 else a.sign db)

/-- `Account.balance(as_of, raw, **kwargs)`: the sum of `simple_balance` over
the account and all of its descendants. -/
def balance (db : Db) (a : Account) (as_of : Option Nat) (raw : Bool)
    (extra : Option (Leg → Bool)) : Int :=
  ((get_descendants db a).map (fun x => simple_balance db x as_of raw extra)).sum

/-- `Account.validate_accounting_equation()`: sum the raw balances of all root
accounts and raise `AccountingEquationViolationError` (carrying the sum) when
the total is nonzero.  The function reads the store and mutates nothing, which
the embedding states by type: it consumes `db` and yields only `Unit`. -/
def validate_accounting_equation (db : Db) : Except HordakError Unit :=
  let balances := (root_nodes db).map (fun a => balance db a none true none)
  if balances.sum ≠ 0 then
    .error (.accountingEquationViolationError balances.sum)
  else
    .ok ()

/-- `Leg.save()`: refuse a zero amount with `ZeroAmountError`, otherwise
persist the row. -/
def Leg.save (db : Db) (l : Leg) : Except HordakError Db :=
  if l.amount = 0 then .error .zeroAmountError
  else .ok { db with legs := db.legs ++ [l] }

/-- `Leg.objects.create(transaction=…, account=…, amount=…)`: build the row
with a fresh primary key and run `Leg.save`. -/
def Leg.create (db : Db) (txId accId : Nat) (amount : Int) : Except HordakError Db :=
  Leg.save { db with nextLegId := db.nextLegId + 1 }
    { id := db.nextLegId, transaction := txId, account := accId,
      amount := amount, description := "" }

/-- `Leg.type` property: `DEBIT` when the amount is negative, `CREDIT` when
positive, `ZeroAmountError` at zero — exactly as the source is written. -/
def Leg.kind (l : Leg) : Except HordakError LegKind :=
  if l.amount < 0 then .ok .debit
  else if l.amount > 0 then .ok .credit
  else .error .zeroAmountError

/-- The legs belonging to a transaction (`self.legs` on a `Transaction`). -/
def transactionLegs (db : Db) (t : Transaction) : List Leg :=
  db.legs.filter (fun l => l.transaction == t.id)

/-- `Transaction.balance()`: `self.legs.sum_amount()`. -/
def Transaction.balance (db : Db) (t : Transaction) : Int :=
  sum_amount (transactionLegs db t)

/-- `Transaction.objects.create()` with the default date (`timezone.now`,
passed in as `now`). -/
def Transaction.create (db : Db) (now : Nat) : Db × Transaction :=
  let t : Transaction := { id := db.nextTransactionId, date := now, description := "" }
  ({ db with transactions := db.transactions ++ [t],
             nextTransactionId := db.nextTransactionId + 1 }, t)

/-- `Account.transfer_to(to_account, amount)`: direction `-1` when the
destination's sign is `+1`, else `1`; create a transaction and the two legs
`(self, +amount*direction)` and `(to_account, -amount*direction)` atomically. -/
def transfer_to (db : Db) (now : Nat) (self to_account : Account) (amount : Int) :
    Except HordakError (Db × Transaction) :=
  let direction : Int := if to_account.sign db = 1 then -1 else 1
  let res := Transaction.create db now
  match Leg.create res.1 res.2.id self.id (amount * direction) with
  | .error e => .error e
  | .ok db2 =>
    match Leg.create db2 res.2.id to_account.id (-amount * direction) with
    | .error e => .error e
    | .ok db3 => .ok (db3, res.2)

/-- `StatementLine.is_reconciled`: true iff `transaction` is set. -/
def StatementLine.is_reconciled (l : StatementLine) : Bool :=
  l.transaction.isSome

/-- `StatementLine.create_transaction(to_account)`: read the bank account off
the statement import, create a transaction, create the two legs
`(from_account, +(amount * -1))` and `(to_account, -(amount * -1))`, set the
transaction's date to the line's date, attach the transaction to the line, all
atomically. -/
def StatementLine.create_transaction (db : Db) (now : Nat) (self : StatementLine)
    (to_account : Account) : Except HordakError (Db × Transaction) :=
  match findStatementImport db self.statement_import with
  | none => .error .doesNotExist
  | some imp =>
    let from_account := imp.bank_account
    let res := Transaction.create db now
    match Leg.create res.1 res.2.id from_account (self.amount * -1) with
    | .error e => .error e
    | .ok db2 =>
      match Leg.create db2 res.2.id to_account.id (-(self.amount * -1)) with
      | .error e => .error e
      | .ok db3 =>
        let t2 : Transaction := { res.2 with date := self.date }
        let db4 : Db := { db3 with
          transactions := db3.transactions.map (fun t => if t.id == t2.id then t2 else t) }
        let self2 : StatementLine := { self with transaction := some t2.id }
        let db5 : Db := { db4 with
          statement_lines := db4.statement_lines.map (fun l => if l.id == self2.id then self2 else l) }
        .ok (db5, t2)

/-- Restricting the persisted legs to those whose transaction date is at most
`D` — the spec's reading of the `as_of` filter (filter first, aggregate after). -/
def restrict_legs (db : Db) (D : Nat) : Db :=
  { db with legs := db.legs.filter (fun l =>
      match findTransaction db l.transaction with
      | some t => t.date ≤ D
      | none => false) }

/-- `sum(balances)` inside `validate_accounting_equation`: the total of the raw
root balances. -/
def root_balances_total (db : Db) : Int :=
  ((root_nodes db).map (fun a => balance db a none true none)).sum

/-- Did the operation succeed (no exception)? -/
def isOkB {α : Type} (r : Except HordakError α) : Bool :=
  match r with
  | .ok _ => true
  | .error _ => false

/-- An empty store. -/
def emptyDb : Db :=
  { accounts := [], transactions := [], legs := [], statement_imports := [],
    statement_lines := [], nextTransactionId := 1, nextLegId := 1 }

/-- The store after a fallible write, the empty store on failure. -/
def dbOf (r : Except HordakError Db) : Db :=
  match r with
  | .ok d => d
  | .error _ => emptyDb

/-- The store after a fallible write returning a pair, the empty store on
failure. -/
def dbOfPair (r : Except HordakError (Db × Transaction)) : Db :=
  match r with
  | .ok p => p.1
  | .error _ => emptyDb

/-- The transaction returned by a fallible write, a dummy on failure. -/
def txOfPair (r : Except HordakError (Db × Transaction)) : Transaction :=
  match r with
  | .ok p => p.2
  | .error _ => { id := 0, date := 0, description := "" }

/-! Concrete fixture: a bank account (asset, root) with a child, an income
account, one balanced transaction, one statement import and two statement
lines (one reconciled, one not). -/

/-- Fixture: root asset account. -/
def exRoot : Account :=
  { id := 1, name := "Bank", parent := none, code := "1",
    typeStored := some .asset, has_statements := true }

/-- Fixture: child of the bank account (no stored type). -/
def exChild : Account :=
  { id := 2, name := "Savings", parent := some 1, code := "2",
    typeStored := none, has_statements := false }

/-- Fixture: root income account. -/
def exIncome : Account :=
  { id := 3, name := "Sales", parent := none, code := "4",
    typeStored := some .income, has_statements := false }

/-- Fixture: one committed transaction dated 10. -/
def exT1 : Transaction :=
  { id := 1, date := 10, description := "" }

/-- Fixture: a transaction id that owns no legs. -/
def exTxEmpty : Transaction :=
  { id := 50, date := 0, description := "" }

/-- Fixture: statement import on the bank account. -/
def exImp : StatementImport :=
  { id := 1, bank_account := 1 }

/-- Fixture: an already-reconciled statement line. -/
def exLineRec : StatementLine :=
  { id := 1, date := 7, statement_import := 1, amount := 5,
    description := "", transaction := some 1 }

/-- Fixture: an unreconciled statement line of amount -50 (money out). -/
def exLineNew : StatementLine :=
  { id := 2, date := 7, statement_import := 1, amount := -50,
    description := "", transaction := none }

/-- Fixture: the whole store. -/
def exDb : Db :=
  { accounts := [exRoot, exChild, exIncome],
    transactions := [exT1],
    legs := [{ id := 1, transaction := 1, account := 1, amount := -100, description := "" },
             { id := 2, transaction := 1, account := 3, amount := 100, description := "" }],
    statement_imports := [exImp],
    statement_lines := [exLineRec, exLineNew],
    nextTransactionId := 2,
    nextLegId := 3 }

/-- Fixture: a zero-amount leg (never persistable). -/
def exZeroLeg : Leg :=
  { id := 9, transaction := 1, account := 1, amount := 0, description := "" }

/-- Fixture for the unbalanced-legs scenario: accounts A and B and one bare
transaction, no legs yet. -/
def dbC3 : Db :=
  { accounts := [{ id := 1, name := "A", parent := none, code := "1",
                   typeStored := some .asset, has_statements := false },
                 { id := 2, name := "B", parent := none, code := "2",
                   typeStored := some .income, has_statements := false }],
    transactions := [{ id := 1, date := 0, description := "" }],
    legs := [],
    statement_imports := [],
    statement_lines := [],
    nextTransactionId := 2,
    nextLegId := 1 }

/-- Saving the unbalanced pair of legs `(A, 10)` and `(B, -9)` for one
transaction, exactly as a caller would through `Leg.objects.create`. -/
def runC3 : Except HordakError Db :=
  match Leg.create dbC3 1 1 10 with
  | .error e => .error e
  | .ok d => Leg.create d 1 2 (-9)

/-! Helper lemmas shared between the claim theorems. -/

/-- `sum_amount` is just the list sum (the `or 0` only maps the empty
aggregate's `None` to the empty sum). -/
theorem sum_amount_eq (ls : List Leg) : sum_amount ls = (ls.map Leg.amount).sum := by
  cases ls <;> simp [sum_amount, aggregate_sum]

/-- A successful `get_rootAux` walk ends at a parentless account. -/
theorem get_rootAux_parent_none (db : Db) :
    ∀ fuel a r, get_rootAux db fuel a = some r → r.parent = none := by
  intro fuel
  induction fuel with
  | zero => intro a r h; simp [get_rootAux] at h
  | succ n ih =>
    intro a r h
    rw [get_rootAux] at h
    split at h
    · rename_i hp
      cases h
      exact hp
    · rename_i p hp
      split at h
      · cases h
      · rename_i pa hf
        exact ih pa r h

/-- A successful `get_root` ends at a root node. -/
theorem get_root_is_root (db : Db) (a r : Account) (h : get_root db a = some r) :
    r.is_root_node = true := by
  have := get_rootAux_parent_none db (db.accounts.length + 1) a r h
  simp [Account.is_root_node, this]

/-- C1: the spec (and the field's own help text, "Record debits as positive,
credits as negative") says the derived leg type is debit for a positive amount
and credit for a negative one.  The code as written returns the opposite:
credit at amount 1 and debit at amount -1.  Only the zero case agrees with the
claim (it raises the zero-amount error). -/
theorem C1_leg_type_evaluated :
    Leg.kind { id := 1, transaction := 1, account := 1, amount := 1, description := "" } =
      .ok .credit ∧
    Leg.kind { id := 1, transaction := 1, account := 1, amount := -1, description := "" } =
      .ok .debit ∧
    Leg.kind { id := 1, transaction := 1, account := 1, amount := 0, description := "" } =
      .error .zeroAmountError := by
  refine ⟨rfl, rfl, rfl⟩

/-- C3: the code has no sum-to-zero check anywhere (only TODO comments), so
saving the unbalanced legs (A, 10) and (B, -9) for one transaction succeeds,
both legs persist, and the transaction's balance is 1, not 0 — contradicting
the claim (and the Leg docstring's "All legs for a transaction must sum to
zero"). -/
theorem C3_unbalanced_legs_persist :
    isOkB runC3 = true ∧
    (dbOf runC3).legs.map (fun l => (l.account, l.amount)) = [(1, 10), (2, -9)] ∧
    Transaction.balance (dbOf runC3) { id := 1, date := 0, description := "" } = 1 := by
  refine ⟨rfl, rfl, rfl⟩

/-- C9: saving a Leg whose amount is zero always fails with the zero-amount
error, through `Leg.save` directly and through `Leg.objects.create`, and never
yields an updated store — nothing is persisted. -/
theorem C9_zero_leg_rejected (db : Db) (l : Leg) (txId accId : Nat)
    (h : l.amount = 0) :
    Leg.save db l = .error .zeroAmountError ∧
    Leg.create db txId accId 0 = .error .zeroAmountError ∧
    ∀ db2, Leg.save db l ≠ .ok db2 := by
  refine ⟨?_, ?_, ?_⟩ <;> simp [Leg.save, Leg.create, h]

/-- C9 witness: the zero-amount fixture leg is rejected. -/
theorem C9_witness :
    Leg.save exDb exZeroLeg = .error .zeroAmountError ∧
    Leg.create exDb 1 1 0 = .error .zeroAmountError :=
  ⟨(C9_zero_leg_rejected exDb exZeroLeg 1 1 rfl).1,
   (C9_zero_leg_rejected exDb exZeroLeg 1 1 rfl).2.1⟩

/-- C10: a transaction's balance is the sum of its legs' amounts, and a
transaction with no legs has balance 0 rather than an error (the empty
aggregate's None is mapped to 0 by the `or 0`). -/
theorem C10_transaction_balance (db : Db) (t : Transaction) :
    Transaction.balance db t = ((transactionLegs db t).map Leg.amount).sum ∧
    (transactionLegs db t = [] → Transaction.balance db t = 0) := by
  constructor
  · exact sum_amount_eq _
  · intro h
    simp [Transaction.balance, h, sum_amount, aggregate_sum]

/-- C10 witness: evaluated on the fixture transaction (two legs, balance 0)
and on a legless transaction id (balance 0, no error). -/
theorem C10_witness :
    Transaction.balance exDb exT1 = ((transactionLegs exDb exT1).map Leg.amount).sum ∧
    Transaction.balance exDb exTxEmpty = 0 :=
  ⟨(C10_transaction_balance exDb exT1).1,
   (C10_transaction_balance exDb exTxEmpty).2 (by decide)⟩

/-- C8: `validate_accounting_equation` succeeds exactly when the raw balances
of the root accounts sum to zero, and on a nonzero total it raises
`AccountingEquationViolationError` carrying that total.  The embedding is a
pure reader of the store (it returns only `Unit`), so it mutates no account,
transaction or leg. -/
theorem C8_validate_equation (db : Db) :
    (validate_accounting_equation db = .ok () ↔ root_balances_total db = 0) ∧
    (root_balances_total db ≠ 0 →
      validate_accounting_equation db =
        .error (.accountingEquationViolationError (root_balances_total db))) := by
  unfold validate_accounting_equation root_balances_total
  by_cases h : ((root_nodes db).map (fun a => balance db a none true none)).sum = 0 <;>
    simp [h]

/-- C8 witness: the balanced fixture ledger passes the validation. -/
theorem C8_witness : validate_accounting_equation exDb = .ok () :=
  (C8_validate_equation exDb).1.mpr (by decide)

/-- C5: a non-root account's effective type is its root ancestor's type;
assigning a type to a non-root account raises `AccountTypeOnChildNode` (the
source's name for the invalid-type-assignment error) and yields no updated
account; on a root account the setter stores the value and the getter returns
it. -/
theorem C5_type_inheritance (db : Db) (a r : Account) (v : AccountType) :
    (a.is_root_node = false → get_root db a = some r →
      Account.type db a = Account.type db r) ∧
    (a.is_root_node = false → Account.setType a v = .error .accountTypeOnChildNode) ∧
    (a.is_root_node = true →
      Account.setType a v = .ok { a with typeStored := some v } ∧
      Account.type db { a with typeStored := some v } = some v) := by
  refine ⟨?_, ?_, ?_⟩
  · intro hroot hr
    have hrr : r.is_root_node = true := get_root_is_root db a r hr
    simp [Account.type, hroot, hr, hrr]
  · intro hroot
    simp [Account.setType, hroot]
  · intro hroot
    have hroot2 : Account.is_root_node { a with typeStored := some v } = true := hroot
    simp [Account.setType, Account.type, hroot, hroot2]

/-- C5 witness: on the fixture tree, the child account inherits the root's
type, setting a type on the child fails, and setting one on the root works. -/
theorem C5_witness :
    Account.type exDb exChild = Account.type exDb exRoot ∧
    Account.setType exChild .income = .error .accountTypeOnChildNode ∧
    Account.setType exRoot .income = .ok { exRoot with typeStored := some .income } :=
  ⟨(C5_type_inheritance exDb exChild exRoot .income).1 (by decide) (by decide),
   (C5_type_inheritance exDb exChild exRoot .income).2.1 (by decide),
   ((C5_type_inheritance exDb exRoot exRoot .income).2.2 (by decide)).1⟩

/-- Restricting the legs does not change account lookup. -/
theorem findAccount_restrict (db : Db) (D p : Nat) :
    findAccount (restrict_legs db D) p = findAccount db p := rfl

/-- Restricting the legs does not change ancestor chains. -/
theorem ancestorIdsAux_restrict (db : Db) (D : Nat) :
    ∀ fuel a, ancestorIdsAux (restrict_legs db D) fuel a = ancestorIdsAux db fuel a := by
  intro fuel
  induction fuel with
  | zero => intro a; rfl
  | succ n ih =>
    intro a
    rw [ancestorIdsAux, ancestorIdsAux]
    cases a.parent with
    | none => rfl
    | some p => simp only [findAccount_restrict, ih]

/-- Restricting the legs does not change root lookup. -/
theorem get_rootAux_restrict (db : Db) (D : Nat) :
    ∀ fuel a, get_rootAux (restrict_legs db D) fuel a = get_rootAux db fuel a := by
  intro fuel
  induction fuel with
  | zero => intro a; rfl
  | succ n ih =>
    intro a
    rw [get_rootAux, get_rootAux]
    cases a.parent with
    | none => rfl
    | some p => simp only [findAccount_restrict, ih]

/-- Restricting the legs does not change the descendant set. -/
theorem get_descendants_restrict (db : Db) (D : Nat) (a : Account) :
    get_descendants (restrict_legs db D) a = get_descendants db a := by
  unfold get_descendants get_ancestor_ids
  simp only [ancestorIdsAux_restrict]
  rfl

/-- Restricting the legs does not change an account's effective type. -/
theorem type_restrict (db : Db) (D : Nat) (x : Account) :
    Account.type (restrict_legs db D) x = Account.type db x := by
  unfold Account.type get_root
  simp only [get_rootAux_restrict]
  rfl

/-- Restricting the legs does not change an account's sign. -/
theorem sign_restrict (db : Db) (D : Nat) (x : Account) :
    Account.sign (restrict_legs db D) x = Account.sign db x := by
  unfold Account.sign
  simp only [type_restrict]

/-- Filtering by account and then by date equals restricting the legs first
and then filtering by account. -/
theorem accountLegs_restrict (db : Db) (D : Nat) (x : Account) :
    accountLegs (restrict_legs db D) x =
      (accountLegs db x).filter (fun l =>
        match findTransaction db l.transaction with
        | some t => t.date ≤ D
        | none => false) := by
  show (db.legs.filter _).filter _ = (db.legs.filter _).filter _
  rw [List.filter_filter, List.filter_filter]
  exact List.filter_congr (fun l _ => Bool.and_comm _ _)

/-- `simple_balance` on the restricted store (no `as_of`) is `simple_balance`
with `as_of` on the original store. -/
theorem simple_balance_restrict (db : Db) (D : Nat) (x : Account) (raw : Bool) :
    simple_balance (restrict_legs db D) x none raw none =
      simple_balance db x (some D) raw none := by
  unfold simple_balance
  rw [sign_restrict]
  unfold kwargsFilter dateFilter
  rw [accountLegs_restrict]

/-- C6: the tree balance as of `D` equals the aggregate obtained by first
restricting the legs to transaction date ≤ `D` and then summing
`simple_balance` over the account and its descendants; with no `as_of` it is
the plain sum of `simple_balance` over the account and its descendants; a date
earlier than every transaction yields 0; and a subtree with no legs yields 0
(with or without a date bound), not an error. -/
theorem C6_balance_aggregation (db : Db) (a : Account) (D E : Nat) (raw : Bool) :
    (balance db a (some D) raw none =
      ((get_descendants db a).map
        (fun x => simple_balance (restrict_legs db D) x none raw none)).sum) ∧
    (balance db a none raw none =
      ((get_descendants db a).map (fun x => simple_balance db x none raw none)).sum) ∧
    ((∀ t ∈ db.transactions, D < t.date) → balance db a (some D) raw none = 0) ∧
    ((∀ x ∈ get_descendants db a, accountLegs db x = []) →
      balance db a (some E) raw none = 0 ∧ balance db a none raw none = 0) := by
  refine ⟨?_, rfl, ?_, ?_⟩
  · unfold balance
    congr 1
    exact List.map_congr_left (fun x _ => (simple_balance_restrict db D x raw).symm)
  · intro hdate
    unfold balance
    apply List.sum_eq_zero
    intro v hv
    rw [List.mem_map] at hv
    obtain ⟨x, -, hx⟩ := hv
    subst hx
    have hnil : (accountLegs db x).filter (fun l =>
        match findTransaction db l.transaction with
        | some t => decide (t.date ≤ D)
        | none => false) = [] := by
      rw [List.filter_eq_nil_iff]
      intro l _
      rcases hf : findTransaction db l.transaction with _ | t
      · simp [hf]
      · have ht : t ∈ db.transactions := List.mem_of_find?_eq_some hf
        have := hdate t ht
        simp [hf]
        omega
    simp only [simple_balance, kwargsFilter, dateFilter, hnil]
    simp [sum_amount, aggregate_sum]
  · intro hlegs
    constructor <;>
    · unfold balance
      apply List.sum_eq_zero
      intro v hv
      rw [List.mem_map] at hv
      obtain ⟨x, hxmem, hx⟩ := hv
      subst hx
      simp only [simple_balance, kwargsFilter, dateFilter, hlegs x hxmem, List.filter_nil]
      simp [sum_amount, aggregate_sum]

/-- C6 witness: on the fixture ledger, the bank subtree balance as of date 5
(before the only transaction, dated 10) is 0, and the as-of-10 balance equals
the restricted-store aggregate. -/
theorem C6_witness :
    balance exDb exRoot (some 5) true none = 0 ∧
    balance exDb exRoot (some 10) true none =
      ((get_descendants exDb exRoot).map
        (fun x => simple_balance (restrict_legs exDb 10) x none true none)).sum :=
  ⟨(C6_balance_aggregation exDb exRoot 5 0 true).2.2.1 (by decide),
   (C6_balance_aggregation exDb exRoot 10 0 true).1⟩

/-- An account's sign is always +1 or -1. -/
theorem sign_cases (db : Db) (a : Account) :
    Account.sign db a = 1 ∨ Account.sign db a = -1 := by
  unfold Account.sign
  split <;> simp

/-- C7: transferring a positive amount succeeds and creates exactly the two
legs the direction rule dictates — `(from, -amount)`/`(to, +amount)` when the
destination's sign is +1, `(from, +amount)`/`(to, -amount)` otherwise (the
sign being -1 in that case) — and the two leg amounts sum to 0. -/
theorem C7_transfer_direction (db : Db) (now : Nat) (from_acc to_acc : Account)
    (amount : Int) (h : 0 < amount) :
    (Account.sign db to_acc = 1 ∨ Account.sign db to_acc = -1) ∧
    isOkB (transfer_to db now from_acc to_acc amount) = true ∧
    (dbOfPair (transfer_to db now from_acc to_acc amount)).legs = db.legs ++
      [{ id := db.nextLegId, transaction := db.nextTransactionId,
         account := from_acc.id,
         amount := if Account.sign db to_acc = 1 then -amount else amount,
         description := "" },
       { id := db.nextLegId + 1, transaction := db.nextTransactionId,
         account := to_acc.id,
         amount := if Account.sign db to_acc = 1 then amount else -amount,
         description := "" }] ∧
    (if Account.sign db to_acc = 1 then -amount else amount) +
      (if Account.sign db to_acc = 1 then amount else -amount) = 0 := by
  have h0 : ¬ (amount = 0) := h.ne'
  have h1 : ¬ (amount * -1 = 0) := by simpa using h.ne'
  have h2 : ¬ (-amount * -1 = 0) := by simpa using h.ne'
  have h3 : ¬ (amount * 1 = 0) := by simpa using h.ne'
  have h4 : ¬ (-amount * 1 = 0) := by simpa using h.ne'
  refine ⟨sign_cases db to_acc, ?_, ?_, ?_⟩ <;>
    by_cases hs : Account.sign db to_acc = 1 <;>
      simp [transfer_to, Transaction.create, Leg.create, Leg.save,
        isOkB, dbOfPair, hs, h0, h1, h2, h3, h4]

/-- C7 witness: on the fixture store, a transfer of 100 from the bank (asset)
to the income account (sign +1) and one in the other direction (destination
sign -1) both succeed. -/
theorem C7_witness :
    isOkB (transfer_to exDb 0 exRoot exIncome 100) = true ∧
    isOkB (transfer_to exDb 0 exIncome exRoot 100) = true :=
  ⟨(C7_transfer_direction exDb 0 exRoot exIncome 100 (by decide)).2.1,
   (C7_transfer_direction exDb 0 exIncome exRoot 100 (by decide)).2.1⟩

/-- C4 counterexample: on the fixture line of amount -50, the code posts
`+(amount * -1)` = 50 to the bank account and `-(amount * -1)` = -50 to the
target — the opposite polarity of the claim's `(from, -(a * -1))`/
`(to, +(a * -1))`. -/
theorem C4_counterexample :
    (dbOfPair (StatementLine.create_transaction exDb 0 exLineNew exIncome)).legs.map
        (fun l => (l.account, l.amount)) =
      [(1, -100), (3, 100), (1, 50), (3, -50)] ∧
    ¬ ((dbOfPair (StatementLine.create_transaction exDb 0 exLineNew exIncome)).legs.map
        (fun l => (l.account, l.amount)) =
      [(1, -100), (3, 100),
       (1, -(exLineNew.amount * -1)), (3, exLineNew.amount * -1)]) := by
  refine ⟨by decide, by decide⟩

/-- C4 amended: `create_transaction(to_account)` on a statement line of amount
`a` (with a valid import and `a ≠ 0`) succeeds and creates exactly two legs,
`(from_account, +(a * -1))` on the statement import's bank account and
`(to_account, -(a * -1))` on the target; it sets the new transaction's date to
the line's date and attaches the transaction to the line, making
`is_reconciled` true.  (Only the polarity of the two legs is amended relative
to the claim.) -/
theorem C4_amended_reconciliation (db : Db) (now : Nat) (line : StatementLine)
    (to_acc : Account) (imp : StatementImport)
    (himp : findStatementImport db line.statement_import = some imp)
    (hamt : line.amount ≠ 0) :
    isOkB (StatementLine.create_transaction db now line to_acc) = true ∧
    (dbOfPair (StatementLine.create_transaction db now line to_acc)).legs = db.legs ++
      [{ id := db.nextLegId, transaction := db.nextTransactionId,
         account := imp.bank_account, amount := line.amount * -1, description := "" },
       { id := db.nextLegId + 1, transaction := db.nextTransactionId,
         account := to_acc.id, amount := -(line.amount * -1), description := "" }] ∧
    (txOfPair (StatementLine.create_transaction db now line to_acc)).date = line.date ∧
    (dbOfPair (StatementLine.create_transaction db now line to_acc)).statement_lines =
      db.statement_lines.map (fun l =>
        if l.id == line.id then { line with transaction := some db.nextTransactionId } else l) ∧
    StatementLine.is_reconciled { line with transaction := some db.nextTransactionId } = true := by
  have h0 : ¬ (line.amount = 0) := hamt
  refine ⟨?_, ?_, ?_, ?_, rfl⟩ <;>
    simp [StatementLine.create_transaction, Transaction.create, Leg.create, Leg.save,
      isOkB, dbOfPair, txOfPair, himp, h0]

/-- C4 witness: the fixture's unreconciled -50 line reconciles into the income
account. -/
theorem C4_witness :
    isOkB (StatementLine.create_transaction exDb 0 exLineNew exIncome) = true :=
  (C4_amended_reconciliation exDb 0 exLineNew exIncome exImp (by decide) (by decide)).1

/-- C2 counterexample: the fixture line is already reconciled, yet calling
`create_transaction` on it succeeds (no `AlreadyReconciledError` exists in the
code) and a new transaction is persisted. -/
theorem C2_counterexample :
    StatementLine.is_reconciled exLineRec = true ∧
    isOkB (StatementLine.create_transaction exDb 0 exLineRec exIncome) = true ∧
    (dbOfPair (StatementLine.create_transaction exDb 0 exLineRec exIncome)).transactions.length =
      exDb.transactions.length + 1 := by
  refine ⟨rfl, by decide, by decide⟩

/-- C2 amended: calling `create_transaction` on an already-reconciled line
(valid import, nonzero amount) does not fail: it creates one more transaction
and two more legs and silently overwrites the line's transaction reference
with the new transaction's id. -/
theorem C2_amended_overwrite (db : Db) (now : Nat) (line : StatementLine)
    (to_acc : Account) (imp : StatementImport)
    (hrec : StatementLine.is_reconciled line = true)
    (himp : findStatementImport db line.statement_import = some imp)
    (hamt : line.amount ≠ 0) :
    isOkB (StatementLine.create_transaction db now line to_acc) = true ∧
    (dbOfPair (StatementLine.create_transaction db now line to_acc)).legs.length =
      db.legs.length + 2 ∧
    (dbOfPair (StatementLine.create_transaction db now line to_acc)).transactions.length =
      db.transactions.length + 1 ∧
    (dbOfPair (StatementLine.create_transaction db now line to_acc)).statement_lines =
      db.statement_lines.map (fun l =>
        if l.id == line.id then { line with transaction := some db.nextTransactionId } else l) := by
  have h0 : ¬ (line.amount = 0) := hamt
  refine ⟨?_, ?_, ?_, ?_⟩ <;>
    simp [StatementLine.create_transaction, Transaction.create, Leg.create, Leg.save,
      isOkB, dbOfPair, himp, h0]

/-- C2 witness: the reconciled fixture line is overwritten without error. -/
theorem C2_witness :
    isOkB (StatementLine.create_transaction exDb 0 exLineRec exIncome) = true :=
  (C2_amended_overwrite exDb 0 exLineRec exIncome exImp (by decide) (by decide) (by decide)).1

end Hordak
